import Mathlib

/-!
Shallow embedding of the request-validation and query-construction layer of
the `restful_task_manager` repository (files `src/app.py`, `src/models.py`).

Conventions of the embedding:
* JSON payload values are modelled by `Value` (string / integer / null);
  a request body is an association list `Data` (Python dict, first match wins).
* Python tuples returned by the validators are modelled by Lean products.
* The storage collaborator (SQLAlchemy session + SQLite) is modelled as an
  explicit `DB` record threaded through every handler; `commit` is a pure
  state replacement.  The storage engine's own constraint enforcement
  (NOT NULL, enum label binding) is outside this layer, as in the spec's
  scope (§1 treats the store as an external collaborator).
* Machine timestamps (`datetime.utcnow()`) are passed in as an explicit
  `now : DateTime` argument.
-/

namespace TaskManager

/-- JSON-ish scalar value as it arrives in a request body. -/
inductive Value where
  | vStr : String → Value
  | vInt : Int → Value
  | vNull : Value
deriving DecidableEq, Repr

/-- Request body: a Python dict, modelled as an association list. -/
abbrev Data := List (String × Value)

/-- First-match lookup, mirroring Python dict access. -/
def lookupField (data : Data) (f : String) : Option Value :=
  data.lookup f

/-- Python `field in data`. -/
def hasKey (data : Data) (f : String) : Bool :=
  (lookupField data f).isSome

/-- Python `data[f]` (under an `f in data` guard) and `data.get(f)`:
an absent key yields Python `None`, i.e. `vNull`. -/
def getv (data : Data) (f : String) : Value :=
  (lookupField data f).getD Value.vNull

/-- Python truthiness of a `Value` (`if not x` tests). -/
def pyFalsy : Value → Bool
  | .vNull => true
  | .vStr s => s.isEmpty
  | .vInt i => i == 0

/-- Python `str.upper()` (ASCII range, which covers every enum label). -/
def pyUpper (s : String) : String :=
  ⟨s.toList.map Char.toUpper⟩

/-- Python `str.lower()` (ASCII range, which covers the order tokens). -/
def pyLower (s : String) : String :=
  ⟨s.toList.map Char.toLower⟩

/-! ## Enumerations (src/models.py lines 18–29) -/

/-- Enumeration `TaskStatus` of `src/models.py`, members in declaration order. -/
inductive TaskStatus where
  | PENDING
  | IN_PROGRESS
  | COMPLETED
deriving DecidableEq, Repr

/-- Member name of a `TaskStatus` (the Python `.name`, which is also the
label SQLAlchemy stores in the enum column). -/
def TaskStatus.pyName : TaskStatus → String
  | .PENDING => "PENDING"
  | .IN_PROGRESS => "IN_PROGRESS"
  | .COMPLETED => "COMPLETED"

/-- External string form of a `TaskStatus` (the Python `.value`). -/
def TaskStatus.value : TaskStatus → String
  | .PENDING => "pending"
  | .IN_PROGRESS => "in_progress"
  | .COMPLETED => "completed"

/-- Members of `TaskStatus` in declaration order (Python iteration order). -/
def TaskStatus.members : List TaskStatus :=
  [.PENDING, .IN_PROGRESS, .COMPLETED]

/-- Enumeration `TaskPriority` of `src/models.py`, members in declaration order. -/
inductive TaskPriority where
  | LOW
  | MEDIUM
  | HIGH
deriving DecidableEq, Repr

/-- Member name of a `TaskPriority` (the Python `.name` / stored label). -/
def TaskPriority.pyName : TaskPriority → String
  | .LOW => "LOW"
  | .MEDIUM => "MEDIUM"
  | .HIGH => "HIGH"

/-- External string form of a `TaskPriority` (the Python `.value`). -/
def TaskPriority.value : TaskPriority → String
  | .LOW => "low"
  | .MEDIUM => "medium"
  | .HIGH => "high"

/-- Members of `TaskPriority` in declaration order. -/
def TaskPriority.members : List TaskPriority :=
  [.LOW, .MEDIUM, .HIGH]

/-- Result slot of `validate_enum_value`: either a resolved enum member, or —
for a non-string, non-null input — the raw value passed through unchanged
(`enum_value = value` branch of `src/app.py` line 62). -/
inductive EnumResult (α : Type) where
  | mem : α → EnumResult α
  | raw : Value → EnumResult α
deriving DecidableEq, Repr

/-! ## Validator helpers (src/app.py lines 29–84) -/

/-- Python `field not in data or data[field] == ''` (src/app.py line 40).
Comparison with `''` is string equality; non-strings are never `== ''`. -/
def fieldMissing (data : Data) (f : String) : Bool :=
  match lookupField data f with
  | none => true
  | some v => v == Value.vStr ""

/-- Embedding of `validate_required_fields` (src/app.py lines 29–43).
Returns the Python pair `(is_valid, error_message)`. -/
def validate_required_fields (data : Data) (required : List String) :
    Bool × Option String :=
  let missing := required.filter (fun f => fieldMissing data f)
  if missing.isEmpty then (true, none)
  else (false, some ("Missing required fields: " ++ String.intercalate ", " missing))

/-- Embedding of `validate_enum_value` (src/app.py lines 46–66), generic over
the enum class, which is passed as its member list together with the `.name`
and `.value` projections.  Returns `(is_valid, error_message, enum_value)`. -/
def validate_enum_value [DecidableEq α] (value : Value) (members : List α)
    (nameOf valueOf : α → String) (fieldName : String) :
    Bool × Option String × Option (EnumResult α) :=
  match value with
  | .vNull => (true, none, none)
  | .vStr s =>
    match members.find? (fun m => nameOf m == pyUpper s) with
    | some m => (true, none, some (.mem m))
    | none =>
      (false,
       some ("Invalid " ++ fieldName ++ ". Must be one of: " ++
             String.intercalate ", " (members.map valueOf)),
       none)
  | v => (true, none, some (.raw v))

/-- Validate a status value against `TaskStatus` exactly as the handlers do. -/
def validateStatus (v : Value) : Bool × Option String × Option (EnumResult TaskStatus) :=
  validate_enum_value v TaskStatus.members TaskStatus.pyName TaskStatus.value "status"

/-- Validate a priority value against `TaskPriority` exactly as the handlers do. -/
def validatePriority (v : Value) : Bool × Option String × Option (EnumResult TaskPriority) :=
  validate_enum_value v TaskPriority.members TaskPriority.pyName TaskPriority.value "priority"

/-! ## Datetime parsing (src/app.py lines 69–84)

`datetime.fromisoformat` is standard-library code, not repository code; it is
modelled here from its documented grammar
`YYYY-MM-DD[*HH[:MM[:SS[.fff[fff]]]][+HH:MM[:SS]]]`, where `*` is any single
separator character.  Calendar day-in-month precision and sub-second offset
parts are simplified (day bounded by 31, offset limited to `±HH:MM[:SS]`
without fractions); no claim depends on those corners. -/

/-- Datetime record: date, time, microseconds and optional UTC offset
(in minutes). -/
structure DateTime where
  year : Nat
  month : Nat
  day : Nat
  hour : Nat
  minute : Nat
  second : Nat
  usec : Nat
  offset : Option Int
deriving DecidableEq, Repr

/-- Read exactly two decimal digits. -/
def digits2 : List Char → Option (Nat × List Char)
  | a :: b :: rest =>
    if a.isDigit && b.isDigit then
      some ((a.toNat - 48) * 10 + (b.toNat - 48), rest)
    else none
  | _ => none

/-- Read exactly four decimal digits. -/
def digits4 : List Char → Option (Nat × List Char)
  | a :: b :: c :: d :: rest =>
    if a.isDigit && b.isDigit && c.isDigit && d.isDigit then
      some ((((a.toNat - 48) * 10 + (b.toNat - 48)) * 10 + (c.toNat - 48)) * 10
              + (d.toNat - 48), rest)
    else none
  | _ => none

/-- Expect one given character. -/
def expectChar (c : Char) : List Char → Option (List Char)
  | x :: rest => if x = c then some rest else none
  | [] => none

/-- Read the optional fractional-seconds part: `.` followed by exactly three
or exactly six digits, yielding microseconds. -/
def readFraction : List Char → Option (Nat × List Char)
  | '.' :: rest =>
    let digs := rest.takeWhile Char.isDigit
    let rest2 := rest.dropWhile Char.isDigit
    let n := digs.foldl (fun acc c => acc * 10 + (c.toNat - 48)) 0
    if digs.length = 3 then some (n * 1000, rest2)
    else if digs.length = 6 then some (n, rest2)
    else none
  | cs => some (0, cs)

/-- Read the optional UTC offset `±HH:MM[:SS]`, in minutes (seconds part
accepted and ignored beyond minute granularity only when zero-padded; we fold
it into minutes by truncation as the claims never reach it). -/
def readOffset : List Char → Option (Option Int × List Char)
  | [] => some (none, [])
  | c :: rest =>
    if c = '+' || c = '-' then do
      let (hh, rest) ← digits2 rest
      let rest ← expectChar ':' rest
      let (mm, rest) ← digits2 rest
      let (ss, rest) ← match rest with
        | ':' :: r2 => digits2 r2
        | r2 => some (0, r2)
      if hh ≤ 23 && mm ≤ 59 && ss ≤ 59 && rest.isEmpty then
        let total : Int := (hh : Int) * 60 + (mm : Int)
        some (some (if c = '-' then -total else total), [])
      else none
    else none

/-- Read the time-of-day part `HH[:MM[:SS[.frac]]]` followed by an optional
offset; the whole remainder must be consumed. -/
def readTime (cs : List Char) : Option (Nat × Nat × Nat × Nat × Option Int) := do
  let (hh, cs) ← digits2 cs
  let (mi, cs) ← match cs with
    | ':' :: r2 => digits2 r2
    | _ => some (0, cs)
  let (ss, usec, cs) ← match cs with
    | ':' :: r2 => do
      let (s, r3) ← digits2 r2
      let (u, r4) ← readFraction r3
      some (s, u, r4)
    | _ => some (0, 0, cs)
  let (off, cs) ← readOffset cs
  if hh ≤ 23 && mi ≤ 59 && ss ≤ 59 && cs.isEmpty then
    some (hh, mi, ss, usec, off)
  else none

/-- Modelled from the documented grammar of `datetime.fromisoformat`
(pre-3.11 CPython): `YYYY-MM-DD` optionally followed by any single separator
character and a time-of-day with optional offset. -/
def fromisoformatL (cs : List Char) : Option DateTime := do
  let (y, cs) ← digits4 cs
  let cs ← expectChar '-' cs
  let (mo, cs) ← digits2 cs
  let cs ← expectChar '-' cs
  let (d, cs) ← digits2 cs
  if 1 ≤ mo && mo ≤ 12 && 1 ≤ d && d ≤ 31 then
    match cs with
    | [] => some ⟨y, mo, d, 0, 0, 0, 0, none⟩
    | _sep :: rest => do
      let (hh, mi, ss, usec, off) ← readTime rest
      some ⟨y, mo, d, hh, mi, ss, usec, off⟩
  else none

/-- String-level entry point of the modelled `datetime.fromisoformat`. -/
def fromisoformat (s : String) : Option DateTime :=
  fromisoformatL s.toList

/-- Python `date_string.replace('Z', '+00:00')`: every occurrence of the
character `Z` is replaced (str.replace substitutes all occurrences). -/
def pyReplaceZ (cs : List Char) : List Char :=
  cs.flatMap (fun c => if c = 'Z' then "+00:00".toList else [c])

/-- Embedding of `parse_datetime` (src/app.py lines 69–84).  A falsy input
(`None`, `''`, `0`) returns `none`; a non-string raises `AttributeError`,
caught and turned into `none`; otherwise every `Z` is replaced by `+00:00`
and the result parsed, with parse failure also yielding `none`. -/
def parse_datetime (v : Value) : Option DateTime :=
  if pyFalsy v then none
  else
    match v with
    | .vStr s => fromisoformatL (pyReplaceZ s.toList)
    | _ => none

/-! ## Data model (src/models.py lines 32–98) and store state -/

/-- Row of the `users` table (src/models.py lines 32–53); only the columns
the handlers read are carried. -/
structure UserR where
  id : Int
  username : Value
  email : Value
deriving DecidableEq, Repr

/-- Row of the `categories` table (src/models.py lines 56–77). -/
structure CategoryR where
  id : Int
  name : Value
  description : Value
  user_id : Value
deriving DecidableEq, Repr

/-- Row of the `tasks` table (src/models.py lines 80–98).  `status` and
`priority` are nullable Python attributes on the ORM object, hence `Option`;
committed rows produced by this layer carry `some` except when an update
explicitly writes a JSON `null` through the validator. -/
structure TaskR where
  id : Int
  title : Value
  description : Value
  status : Option (EnumResult TaskStatus)
  priority : Option (EnumResult TaskPriority)
  due_date : Option DateTime
  category_id : Value
  user_id : Value
  created_at : DateTime
  updated_at : DateTime
deriving DecidableEq, Repr

/-- State of the relational store: the three tables, rows in insertion order. -/
structure DB where
  users : List UserR
  categories : List CategoryR
  tasks : List TaskR
deriving DecidableEq, Repr

/-- SQL comparison of an integer id column against a JSON payload value
(numeric-string affinity coercion of SQLite is not modelled; all claims use
integer payloads). -/
def colIdEq (i : Int) (v : Value) : Bool :=
  v == Value.vInt i

/-- Existence check `db.query(User).filter(User.id == v).first()` is truthy. -/
def userExists (db : DB) (v : Value) : Bool :=
  db.users.any (fun u => colIdEq u.id v)

/-- Existence check `db.query(Category).filter(Category.id == v).first()`. -/
def categoryExists (db : DB) (v : Value) : Bool :=
  db.categories.any (fun c => colIdEq c.id v)

/-- Lookup `db.query(Task).filter(Task.id == task_id).first()`. -/
def findTask (db : DB) (task_id : Int) : Option TaskR :=
  db.tasks.find? (fun t => t.id == task_id)

/-- Lookup `db.query(Category).filter(Category.id == category_id).first()`. -/
def findCategory (db : DB) (category_id : Int) : Option CategoryR :=
  db.categories.find? (fun c => c.id == category_id)

/-- Commit of an ORM update to a task row: the row with that id is replaced. -/
def replaceTask (db : DB) (task_id : Int) (t' : TaskR) : DB :=
  { db with tasks := db.tasks.map (fun t => if t.id == task_id then t' else t) }

/-- Commit of an ORM update to a category row. -/
def replaceCategory (db : DB) (category_id : Int) (c' : CategoryR) : DB :=
  { db with categories :=
      db.categories.map (fun c => if c.id == category_id then c' else c) }

/-- Surrogate for the autoincrement id generator of the `tasks` table. -/
def nextTaskId (db : DB) : Int :=
  (db.tasks.map (fun t => t.id)).foldr max 0 + 1

/-- Error classes a handler can return: `badRequest` carries HTTP 400
(`BadInput`), `notFound` carries HTTP 404. -/
inductive ApiErr where
  | badRequest : String → ApiErr
  | notFound : String → ApiErr
deriving DecidableEq, Repr

/-! ## Handlers (src/app.py) -/

/-- Embedding of `create_task` (src/app.py lines 407–481).  Returns the
response (created row or error) together with the resulting store state.
The column defaults of src/models.py (`status` → PENDING, `priority` →
MEDIUM, timestamps → `utcnow`) are applied at insert when the attribute is
`None`, as SQLAlchemy does. -/
def create_task (db : DB) (data : Data) (now : DateTime) :
    Except ApiErr TaskR × DB :=
  if data.isEmpty then (.error (.badRequest "No data provided"), db)
  else
    let r := validate_required_fields data ["title", "category_id", "user_id"]
    if !r.1 then (.error (.badRequest (r.2.getD "")), db)
    else if !userExists db (getv data "user_id") then
      (.error (.notFound "User not found"), db)
    else if !categoryExists db (getv data "category_id") then
      (.error (.notFound "Category not found"), db)
    else
      -- status := TaskStatus.PENDING, overwritten when the key is present
      let statusRes : Except ApiErr (Option (EnumResult TaskStatus)) :=
        if hasKey data "status" then
          let r := validateStatus (getv data "status")
          if !r.1 then .error (.badRequest (r.2.1.getD "")) else .ok r.2.2
        else .ok (some (.mem .PENDING))
      match statusRes with
      | .error e => (.error e, db)
      | .ok statusv =>
        let priorityRes : Except ApiErr (Option (EnumResult TaskPriority)) :=
          if hasKey data "priority" then
            let r := validatePriority (getv data "priority")
            if !r.1 then .error (.badRequest (r.2.1.getD "")) else .ok r.2.2
          else .ok (some (.mem .MEDIUM))
        match priorityRes with
        | .error e => (.error e, db)
        | .ok priorityv =>
          let due_date := parse_datetime (getv data "due_date")
          let new_task : TaskR :=
            { id := nextTaskId db
              title := getv data "title"
              description := (lookupField data "description").getD (.vStr "")
              status := some (statusv.getD (.mem .PENDING))
              priority := some (priorityv.getD (.mem .MEDIUM))
              due_date := due_date
              category_id := getv data "category_id"
              user_id := getv data "user_id"
              created_at := now
              updated_at := now }
          (.ok new_task, { db with tasks := db.tasks ++ [new_task] })

/-- Embedding of `update_task` (PUT, src/app.py lines 586–654).  Note the
source performs no existence check on `category_id` / `user_id` here. -/
def update_task (db : DB) (task_id : Int) (data : Data) (now : DateTime) :
    Except ApiErr TaskR × DB :=
  if data.isEmpty then (.error (.badRequest "No data provided"), db)
  else
    match findTask db task_id with
    | none => (.error (.notFound "Task not found"), db)
    | some task =>
      let r := validate_required_fields data ["title", "category_id", "user_id"]
      if !r.1 then (.error (.badRequest (r.2.getD "")), db)
      else
        let statusRes : Except ApiErr (Option (EnumResult TaskStatus)) :=
          if hasKey data "status" then
            let r := validateStatus (getv data "status")
            if !r.1 then .error (.badRequest (r.2.1.getD "")) else .ok r.2.2
          else .ok task.status
        match statusRes with
        | .error e => (.error e, db)
        | .ok statusv =>
          let priorityRes : Except ApiErr (Option (EnumResult TaskPriority)) :=
            if hasKey data "priority" then
              let r := validatePriority (getv data "priority")
              if !r.1 then .error (.badRequest (r.2.1.getD "")) else .ok r.2.2
            else .ok task.priority
          match priorityRes with
          | .error e => (.error e, db)
          | .ok priorityv =>
            let duev := if hasKey data "due_date" then
                parse_datetime (getv data "due_date") else task.due_date
            let task' : TaskR :=
              { task with
                  status := statusv
                  priority := priorityv
                  due_date := duev
                  title := getv data "title"
                  description := (lookupField data "description").getD (.vStr "")
                  category_id := getv data "category_id"
                  user_id := getv data "user_id"
                  updated_at := now }
            (.ok task', replaceTask db task_id task')

/-- PATCH block `if 'title' in data` (src/app.py lines 686–687). -/
def patchTitle (data : Data) (t : TaskR) : TaskR :=
  if hasKey data "title" then { t with title := getv data "title" } else t

/-- PATCH block `if 'description' in data` (src/app.py lines 689–690). -/
def patchDescription (data : Data) (t : TaskR) : TaskR :=
  if hasKey data "description" then { t with description := getv data "description" } else t

/-- PATCH block `if 'status' in data` (src/app.py lines 692–696). -/
def patchStatus (data : Data) (t : TaskR) : Except ApiErr TaskR :=
  if hasKey data "status" then
    let r := validateStatus (getv data "status")
    if !r.1 then .error (.badRequest (r.2.1.getD ""))
    else .ok { t with status := r.2.2 }
  else .ok t

/-- PATCH block `if 'priority' in data` (src/app.py lines 698–702). -/
def patchPriority (data : Data) (t : TaskR) : Except ApiErr TaskR :=
  if hasKey data "priority" then
    let r := validatePriority (getv data "priority")
    if !r.1 then .error (.badRequest (r.2.1.getD ""))
    else .ok { t with priority := r.2.2 }
  else .ok t

/-- PATCH block `if 'due_date' in data` (src/app.py lines 704–705). -/
def patchDueDate (data : Data) (t : TaskR) : TaskR :=
  if hasKey data "due_date" then
    { t with due_date := parse_datetime (getv data "due_date") } else t

/-- PATCH block `if 'category_id' in data` (src/app.py lines 707–712). -/
def patchCategory (db : DB) (data : Data) (t : TaskR) : Except ApiErr TaskR :=
  if hasKey data "category_id" then
    if categoryExists db (getv data "category_id") then
      .ok { t with category_id := getv data "category_id" }
    else .error (.notFound "Category not found")
  else .ok t

/-- PATCH block `if 'user_id' in data` (src/app.py lines 714–719). -/
def patchUser (db : DB) (data : Data) (t : TaskR) : Except ApiErr TaskR :=
  if hasKey data "user_id" then
    if userExists db (getv data "user_id") then
      .ok { t with user_id := getv data "user_id" }
    else .error (.notFound "User not found")
  else .ok t

/-- Field-update phase of `partial_update_task` (src/app.py lines 685–719):
the per-key mutations applied to the in-session task object, in source
order, with the existence checks for `category_id` / `user_id`.  Errors
abort before commit. -/
def applyFields (db : DB) (data : Data) (task0 : TaskR) : Except ApiErr TaskR := do
  let t := patchTitle data task0
  let t := patchDescription data t
  let t ← patchStatus data t
  let t ← patchPriority data t
  let t := patchDueDate data t
  let t ← patchCategory db data t
  let t ← patchUser db data t
  .ok t

/-- Embedding of `partial_update_task` (PATCH, src/app.py lines 657–732). -/
def partial_update_task (db : DB) (task_id : Int) (data : Data) (now : DateTime) :
    Except ApiErr TaskR × DB :=
  if data.isEmpty then (.error (.badRequest "No data provided"), db)
  else
    match findTask db task_id with
    | none => (.error (.notFound "Task not found"), db)
    | some task =>
      match applyFields db data task with
      | .error e => (.error e, db)
      | .ok t =>
        let t' := { t with updated_at := now }
        (.ok t', replaceTask db task_id t')

/-- Embedding of `update_category` (PUT, src/app.py lines 320–368).  Note the
source performs no existence check on `user_id` here. -/
def update_category (db : DB) (category_id : Int) (data : Data) :
    Except ApiErr CategoryR × DB :=
  if data.isEmpty then (.error (.badRequest "No data provided"), db)
  else
    match findCategory db category_id with
    | none => (.error (.notFound "Category not found"), db)
    | some category =>
      let r := validate_required_fields data ["name", "user_id"]
      if !r.1 then (.error (.badRequest (r.2.getD "")), db)
      else
        let category' : CategoryR :=
          { category with
              name := getv data "name"
              description := (lookupField data "description").getD category.description
              user_id := getv data "user_id" }
        (.ok category', replaceCategory db category_id category')

/-! ## Task listing (src/app.py lines 484–555) -/

/-- Stored text for a raw (non-enum) column value, used only to make the
sort comparator total. -/
def rawLabel : Value → String
  | .vStr s => s
  | .vInt i => toString i
  | .vNull => ""

/-- Label stored in the `status` column: SQLAlchemy persists the member
name (`PENDING`, `IN_PROGRESS`, `COMPLETED`), and the RDBMS sorts that
text. -/
def statusLabel : Option (EnumResult TaskStatus) → String
  | some (.mem m) => m.pyName
  | some (.raw v) => rawLabel v
  | none => ""

/-- Label stored in the `priority` column (`LOW`, `MEDIUM`, `HIGH`). -/
def priorityLabel : Option (EnumResult TaskPriority) → String
  | some (.mem m) => m.pyName
  | some (.raw v) => rawLabel v
  | none => ""

/-- Comparison of stored timestamps; SQLite stores them as ISO text, so the
order is lexicographic on the zero-padded components (tz offsets are not
stored and are ignored). -/
def cmpDT (a b : DateTime) : Ordering :=
  (compare a.year b.year).then <| (compare a.month b.month).then <|
    (compare a.day b.day).then <| (compare a.hour b.hour).then <|
      (compare a.minute b.minute).then <| (compare a.second b.second).then <|
        compare a.usec b.usec

/-- Comparison of a nullable timestamp column; SQL NULL sorts first
ascending. -/
def cmpOptDT : Option DateTime → Option DateTime → Ordering
  | none, none => .eq
  | none, some _ => .lt
  | some _, none => .gt
  | some a, some b => cmpDT a b

/-- `ORDER BY` key comparison for a validated `sort_by` column. -/
def taskKeyCmp (sb : String) (a b : TaskR) : Ordering :=
  if sb = "due_date" then cmpOptDT a.due_date b.due_date
  else if sb = "priority" then compare (priorityLabel a.priority) (priorityLabel b.priority)
  else if sb = "status" then compare (statusLabel a.status) (statusLabel b.status)
  else if sb = "updated_at" then cmpDT a.updated_at b.updated_at
  else cmpDT a.created_at b.created_at

/-- Insert `x` after every element `y` with `le y x` (stable placement). -/
def insertBy (le : α → α → Bool) (x : α) : List α → List α
  | [] => [x]
  | y :: ys => if le y x then y :: insertBy le x ys else x :: y :: ys

/-- Stable sort by a boolean `≤` test (ties keep first-seen order, the
implementation-defined secondary key of §4.2.6). -/
def orderBy (le : α → α → Bool) (l : List α) : List α :=
  l.foldl (fun acc x => insertBy le x acc) []

/-- Query parameters of `GET /api/tasks`; `request.args.get` yields an
optional string, and `type=int` coerces to an optional integer (conversion
failure gives the `None` default). -/
structure ListParams where
  status : Option String
  priority : Option String
  category_id : Option Int
  user_id : Option Int
  sort_by : Option String
  order : Option String
deriving DecidableEq, Repr

/-- Resolution of the `status` query parameter of `get_all_tasks`
(src/app.py lines 507–512): skipped when absent or empty (string
truthiness), otherwise validated, an invalid value aborting the request. -/
def statusFilterStep (o : Option String) :
    Except ApiErr (Option (EnumResult TaskStatus)) :=
  match o with
  | some s =>
    if !s.isEmpty then
      let r := validateStatus (.vStr s)
      if !r.1 then .error (.badRequest (r.2.1.getD "")) else .ok r.2.2
    else .ok none
  | none => .ok none

/-- Resolution of the `priority` query parameter (src/app.py lines 515–520),
symmetric to `statusFilterStep`. -/
def priorityFilterStep (o : Option String) :
    Except ApiErr (Option (EnumResult TaskPriority)) :=
  match o with
  | some s =>
    if !s.isEmpty then
      let r := validatePriority (.vStr s)
      if !r.1 then .error (.badRequest (r.2.1.getD "")) else .ok r.2.2
    else .ok none
  | none => .ok none

/-- Embedding of `get_all_tasks` (src/app.py lines 484–555): validate and
collect filters in source order, validate `sort_by` / `order`, then filter
and sort the rows. -/
def get_all_tasks (db : DB) (p : ListParams) : Except ApiErr (List TaskR) :=
  match statusFilterStep p.status with
  | .error e => .error e
  | .ok statusF =>
    match priorityFilterStep p.priority with
    | .error e => .error e
    | .ok priorityF =>
      let sort_by := p.sort_by.getD "created_at"
      let order := pyLower (p.order.getD "desc")
      if !(["due_date", "created_at", "priority", "status", "updated_at"].contains sort_by) then
        .error (.badRequest
          "Invalid sort_by parameter. Must be one of: due_date, created_at, priority, status, updated_at")
      else if !(["asc", "desc"].contains order) then
        .error (.badRequest "Invalid order parameter. Must be asc or desc")
      else
        let rows := db.tasks.filter (fun t =>
          (match statusF with
           | some e => t.status == some e
           | none => true) &&
          (match priorityF with
           | some e => t.priority == some e
           | none => true) &&
          -- `if category_id:` — integer truthiness, so 0 disables the filter
          (match p.category_id with
           | some i => if i == 0 then true else t.category_id == Value.vInt i
           | none => true) &&
          (match p.user_id with
           | some i => if i == 0 then true else t.user_id == Value.vInt i
           | none => true))
        if order == "desc" then
          .ok (orderBy (fun a b => taskKeyCmp sort_by b a != Ordering.gt) rows)
        else
          .ok (orderBy (fun a b => taskKeyCmp sort_by a b != Ordering.gt) rows)

/-- Embedding of `get_all_categories` (src/app.py lines 262–289): the
`user_id` query parameter is applied under integer truthiness. -/
def get_all_categories (db : DB) (user_id : Option Int) : List CategoryR :=
  db.categories.filter (fun c =>
    match user_id with
    | some i => if i == 0 then true else c.user_id == Value.vInt i
    | none => true)

/-! ## Concrete fixtures shared by the claim theorems -/

/-- Sample timestamp. -/
def sampleTime : DateTime := ⟨2024, 1, 1, 0, 0, 0, 0, none⟩

/-- Later sample timestamp. -/
def sampleTime2 : DateTime := ⟨2024, 1, 2, 0, 0, 0, 0, none⟩

/-- Sample task row with a chosen id, status and priority. -/
def sampleTask (i : Int) (s : TaskStatus) (p : TaskPriority) : TaskR :=
  ⟨i, .vStr "t", .vStr "", some (.mem s), some (.mem p), none, .vInt 1, .vInt 1,
   sampleTime, sampleTime⟩

/-- Sample store: one user (id 1), one category (id 1), three tasks whose
priorities are low/medium/high and statuses pending/in_progress/completed in
insertion order. -/
def sampleDB : DB :=
  ⟨[⟨1, .vStr "john", .vStr "john@example.com"⟩],
   [⟨1, .vStr "Work", .vStr "", .vInt 1⟩],
   [sampleTask 1 .PENDING .LOW, sampleTask 2 .IN_PROGRESS .MEDIUM,
    sampleTask 3 .COMPLETED .HIGH]⟩

/-- Listing parameters with only a sort field and direction set. -/
def sortParams (sb ord : String) : ListParams :=
  ⟨none, none, none, none, some sb, some ord⟩

/-! ## Claim theorems -/

/-- Claim C1 (code_bug evidence): sorting tasks by `priority` ascending does
NOT return the declaration order low, medium, high.  The enum columns store
the member names (`LOW` < `MEDIUM`, but `HIGH` < `LOW` alphabetically), and
the `ORDER BY` sorts that text, so the rows come back high, low, medium; for
`status` ascending they come back completed, in_progress, pending instead of
the declared pending, in_progress, completed. -/
theorem C1_enum_sort_is_alphabetical_not_ordinal :
    (get_all_tasks sampleDB (sortParams "priority" "asc")).map
        (fun l => l.map (fun t => t.priority))
      = .ok [some (.mem .HIGH), some (.mem .LOW), some (.mem .MEDIUM)] ∧
    (get_all_tasks sampleDB (sortParams "status" "asc")).map
        (fun l => l.map (fun t => t.status))
      = .ok [some (.mem .COMPLETED), some (.mem .IN_PROGRESS), some (.mem .PENDING)] := by
  exact ⟨rfl, rfl⟩

/-- Claim C2 (code_bug evidence): the full-update (PUT) handlers perform no
existence check on foreign keys.  With no category 99 and no user 42 in the
store, `update_task` happily writes `category_id = 99` and returns success,
and `update_category` writes `user_id = 42` and returns success, where the
claim demands a `NotFound` error and no write. -/
theorem C2_put_handlers_skip_fk_existence_checks :
    categoryExists sampleDB (.vInt 99) = false ∧
    userExists sampleDB (.vInt 42) = false ∧
    ((update_task sampleDB 1
        [("title", .vStr "t"), ("category_id", .vInt 99), ("user_id", .vInt 1)]
        sampleTime2).1.map (fun t => t.category_id) = .ok (.vInt 99)) ∧
    ((update_task sampleDB 1
        [("title", .vStr "t"), ("category_id", .vInt 99), ("user_id", .vInt 1)]
        sampleTime2).2.tasks.map (fun t => t.category_id)
      = [.vInt 99, .vInt 1, .vInt 1]) ∧
    ((update_category sampleDB 1
        [("name", .vStr "n"), ("user_id", .vInt 42)]).1.map (fun c => c.user_id)
      = .ok (.vInt 42)) ∧
    ((update_category sampleDB 1
        [("name", .vStr "n"), ("user_id", .vInt 42)]).2.categories.map (fun c => c.user_id)
      = [.vInt 42]) := by
  refine ⟨rfl, rfl, rfl, rfl, rfl, rfl⟩

/-- Claim C9: a present enum value that is neither a string nor null passes
`validate_enum_value` untouched — it is reported valid and returned raw with
no membership check — and the create / full-update / partial-update handlers
therefore accept it and store the raw value in the enum field. -/
theorem C9_nonstring_enum_values_bypass_validation :
    (∀ i : Int,
      validateStatus (.vInt i) = (true, none, some (.raw (.vInt i))) ∧
      validatePriority (.vInt i) = (true, none, some (.raw (.vInt i)))) ∧
    ((create_task sampleDB
        [("title", .vStr "t"), ("category_id", .vInt 1), ("user_id", .vInt 1),
         ("status", .vInt 5), ("priority", .vInt 7)] sampleTime).1.map
        (fun t => (t.status, t.priority))
      = .ok (some (.raw (.vInt 5)), some (.raw (.vInt 7)))) ∧
    ((update_task sampleDB 1
        [("title", .vStr "t"), ("category_id", .vInt 1), ("user_id", .vInt 1),
         ("status", .vInt 5)] sampleTime2).1.map (fun t => t.status)
      = .ok (some (.raw (.vInt 5)))) ∧
    ((partial_update_task sampleDB 1 [("priority", .vInt 7)] sampleTime2).1.map
        (fun t => t.priority)
      = .ok (some (.raw (.vInt 7)))) := by
  exact ⟨fun i => ⟨rfl, rfl⟩, rfl, rfl, rfl⟩

/-- Claim C10: an integer filter value of 0 for `category_id` or `user_id`
is treated exactly as an absent filter, both in task listing and in category
listing, because presence is tested by integer truthiness. -/
theorem C10_zero_id_filter_is_ignored :
    (∀ (db : DB) (p : ListParams),
      get_all_tasks db { p with category_id := some 0 }
        = get_all_tasks db { p with category_id := none }) ∧
    (∀ (db : DB) (p : ListParams),
      get_all_tasks db { p with user_id := some 0 }
        = get_all_tasks db { p with user_id := none }) ∧
    (∀ db : DB, get_all_categories db (some 0) = get_all_categories db none) := by
  refine ⟨fun db p => rfl, fun db p => rfl, fun db => rfl⟩

/-- Spec-side reading of "missing or empty": the code's boolean test agrees
with "absent from the payload or equal to the empty string". -/
theorem fieldMissing_iff (data : Data) (f : String) :
    fieldMissing data f = true ↔
      (lookupField data f = none ∨ lookupField data f = some (.vStr "")) := by
  unfold fieldMissing
  cases h : lookupField data f with
  | none => simp
  | some v => simp [h, beq_iff_eq]

/-- Claim C4: required-field validation fails exactly when some required
field is absent or the empty string, and on failure the message enumerates
every such field (not just the first); absence and empty string are the same
test. -/
theorem C4_required_field_validation_enumerates_all :
    (∀ (data : Data) (required : List String),
      (validate_required_fields data required).1 = true ↔
        ∀ f ∈ required,
          ¬(lookupField data f = none ∨ lookupField data f = some (.vStr ""))) ∧
    (∀ (data : Data) (required : List String),
      (validate_required_fields data required).1 = false →
        (validate_required_fields data required).2 =
          some ("Missing required fields: " ++ String.intercalate ", "
            (required.filter (fun f =>
              decide (lookupField data f = none ∨
                      lookupField data f = some (.vStr "")))))) ∧
    (∀ (data : Data) (f : String),
      fieldMissing data f = true ↔
        (lookupField data f = none ∨ lookupField data f = some (.vStr ""))) := by
  have hpoint : ∀ (data : Data) (f : String),
      fieldMissing data f =
        decide (lookupField data f = none ∨
                lookupField data f = some (.vStr "")) := by
    intro data f
    by_cases hp : (lookupField data f = none ∨ lookupField data f = some (.vStr ""))
    · simp [hp, (fieldMissing_iff data f).mpr hp]
    · have hfm : fieldMissing data f = false := by
        cases hfm : fieldMissing data f with
        | false => rfl
        | true => exact absurd ((fieldMissing_iff data f).mp hfm) hp
      simp [hp, hfm]
  have hfilter : ∀ (data : Data) (required : List String),
      required.filter (fun f => fieldMissing data f) =
        required.filter (fun f =>
          decide (lookupField data f = none ∨
                  lookupField data f = some (.vStr ""))) := by
    intro data required
    exact List.filter_congr (fun f _ => hpoint data f)
  refine ⟨?_, ?_, fieldMissing_iff⟩
  · intro data required
    constructor
    · intro htrue f hf hp
      have hnil : required.filter (fun f => fieldMissing data f) = [] := by
        by_contra hne
        have hfalse : (required.filter (fun f => fieldMissing data f)).isEmpty = false := by
          simpa [List.isEmpty_iff] using hne
        unfold validate_required_fields at htrue
        simp [hfalse] at htrue
      have hmem : f ∈ required.filter (fun f => fieldMissing data f) :=
        List.mem_filter.mpr ⟨hf, (fieldMissing_iff data f).mpr hp⟩
      simp [hnil] at hmem
    · intro hall
      have hnil : required.filter (fun f => fieldMissing data f) = [] := by
        rw [List.filter_eq_nil_iff]
        intro f hf
        simp only [Bool.not_eq_true]
        cases hfm : fieldMissing data f with
        | false => rfl
        | true => exact absurd ((fieldMissing_iff data f).mp hfm) (hall f hf)
      unfold validate_required_fields
      simp [hnil]
  · intro data required hfail
    have hne : (required.filter (fun f => fieldMissing data f)).isEmpty = false := by
      cases hempty : (required.filter (fun f => fieldMissing data f)).isEmpty with
      | false => rfl
      | true =>
        unfold validate_required_fields at hfail
        simp [hempty] at hfail
    unfold validate_required_fields
    simp only [hne, Bool.false_eq_true, if_false]
    rw [hfilter]

/-- Witness for C4 at a concrete payload: `title` is present but empty and
the other two required fields are absent, and all three are enumerated. -/
theorem C4_witness :
    (validate_required_fields [("title", Value.vStr "")]
        ["title", "category_id", "user_id"]).2
      = some "Missing required fields: title, category_id, user_id" := by
  have h := C4_required_field_validation_enumerates_all.2.1
    [("title", Value.vStr "")] ["title", "category_id", "user_id"] (by rfl)
  exact h.trans (by rfl)

/-- Claim C5: enum validation succeeds with no resolved value on null input;
strings equal up to letter case resolve identically; and a string matching
no member fails with a message naming the field and listing all accepted
values in their external lowercase form. -/
theorem C5_enum_validation_case_insensitive_and_messages :
    (validateStatus .vNull = (true, none, none) ∧
     validatePriority .vNull = (true, none, none)) ∧
    (∀ s1 s2 : String, pyUpper s1 = pyUpper s2 →
      validateStatus (.vStr s1) = validateStatus (.vStr s2) ∧
      validatePriority (.vStr s1) = validatePriority (.vStr s2)) ∧
    (∀ s : String, (∀ m ∈ TaskStatus.members, TaskStatus.pyName m ≠ pyUpper s) →
      validateStatus (.vStr s) =
        (false, some "Invalid status. Must be one of: pending, in_progress, completed",
         none)) ∧
    (∀ s : String, (∀ m ∈ TaskPriority.members, TaskPriority.pyName m ≠ pyUpper s) →
      validatePriority (.vStr s) =
        (false, some "Invalid priority. Must be one of: low, medium, high", none)) := by
  refine ⟨⟨rfl, rfl⟩, ?_, ?_, ?_⟩
  · intro s1 s2 h
    refine ⟨?_, ?_⟩
    · simp only [validateStatus, validate_enum_value, h]
    · simp only [validatePriority, validate_enum_value, h]
  · intro s h
    have hfind : TaskStatus.members.find?
        (fun m => TaskStatus.pyName m == pyUpper s) = none := by
      rw [List.find?_eq_none]
      intro m hm
      simpa using h m hm
    simp only [validateStatus, validate_enum_value, hfind]
    rfl
  · intro s h
    have hfind : TaskPriority.members.find?
        (fun m => TaskPriority.pyName m == pyUpper s) = none := by
      rw [List.find?_eq_none]
      intro m hm
      simpa using h m hm
    simp only [validatePriority, validate_enum_value, hfind]
    rfl

/-- Witness for C5: `HIGH` and `high` resolve to the same member, and a
non-member string gets the full accepted-values message. -/
theorem C5_witness :
    validatePriority (.vStr "HIGH") = validatePriority (.vStr "high") ∧
    validatePriority (.vStr "high") = (true, none, some (.mem .HIGH)) ∧
    validateStatus (.vStr "urgent") =
      (false, some "Invalid status. Must be one of: pending, in_progress, completed",
       none) :=
  ⟨(C5_enum_validation_case_insensitive_and_messages.2.1 "HIGH" "high" (by rfl)).2,
   rfl,
   C5_enum_validation_case_insensitive_and_messages.2.2.1 "urgent" (by decide)⟩

/-- Exit analysis of `create_task`: every error exit returns the store
unchanged; the single success exit appends exactly the created row. -/
theorem create_task_cases (db : DB) (data : Data) (now : DateTime) :
    (∃ e, create_task db data now = (.error e, db)) ∨
    (∃ t, create_task db data now = (.ok t, { db with tasks := db.tasks ++ [t] })) := by
  simp only [create_task]
  repeat' split
  all_goals first
    | exact .inl ⟨_, rfl⟩
    | exact .inr ⟨_, rfl⟩

/-- Exit analysis of `update_task`: error exits return the store unchanged,
the success exit replaces exactly the addressed row. -/
theorem update_task_cases (db : DB) (tid : Int) (data : Data) (now : DateTime) :
    (∃ e, update_task db tid data now = (.error e, db)) ∨
    (∃ t, update_task db tid data now = (.ok t, replaceTask db tid t)) := by
  simp only [update_task]
  repeat' split
  all_goals first
    | exact .inl ⟨_, rfl⟩
    | exact .inr ⟨_, rfl⟩

/-- Exit analysis of `partial_update_task`. -/
theorem partial_update_task_cases (db : DB) (tid : Int) (data : Data) (now : DateTime) :
    (∃ e, partial_update_task db tid data now = (.error e, db)) ∨
    (∃ t, partial_update_task db tid data now = (.ok t, replaceTask db tid t)) := by
  simp only [partial_update_task]
  repeat' split
  all_goals first
    | exact .inl ⟨_, rfl⟩
    | exact .inr ⟨_, rfl⟩

/-- Exit analysis of `update_category`. -/
theorem update_category_cases (db : DB) (cid : Int) (data : Data) :
    (∃ e, update_category db cid data = (.error e, db)) ∨
    (∃ c, update_category db cid data = (.ok c, replaceCategory db cid c)) := by
  simp only [update_category]
  repeat' split
  all_goals first
    | exact .inl ⟨_, rfl⟩
    | exact .inr ⟨_, rfl⟩

/-- Claim C3: a create-task request whose `category_id` (or `user_id`)
references no existing row gets `NotFound` with no task row persisted, and —
for every mutating handler modelled — every error exit leaves the stored
state exactly as it was (full commit or full rollback, never a partial
write).  The user check runs first in the source, so the dangling-`user_id`
conjunct needs no assumption on the category. -/
theorem C3_error_paths_leave_store_unchanged :
    (∀ (db : DB) (data : Data) (now : DateTime),
      data ≠ [] →
      (validate_required_fields data ["title", "category_id", "user_id"]).1 = true →
      userExists db (getv data "user_id") = true →
      categoryExists db (getv data "category_id") = false →
      create_task db data now = (.error (.notFound "Category not found"), db)) ∧
    (∀ (db : DB) (data : Data) (now : DateTime),
      data ≠ [] →
      (validate_required_fields data ["title", "category_id", "user_id"]).1 = true →
      userExists db (getv data "user_id") = false →
      create_task db data now = (.error (.notFound "User not found"), db)) ∧
    (∀ (db : DB) (data : Data) (now : DateTime) (e : ApiErr),
      (create_task db data now).1 = .error e → (create_task db data now).2 = db) ∧
    (∀ (db : DB) (tid : Int) (data : Data) (now : DateTime) (e : ApiErr),
      (update_task db tid data now).1 = .error e → (update_task db tid data now).2 = db) ∧
    (∀ (db : DB) (tid : Int) (data : Data) (now : DateTime) (e : ApiErr),
      (partial_update_task db tid data now).1 = .error e →
        (partial_update_task db tid data now).2 = db) ∧
    (∀ (db : DB) (cid : Int) (data : Data) (e : ApiErr),
      (update_category db cid data).1 = .error e → (update_category db cid data).2 = db) := by
  refine ⟨?_, ?_, ?_, ?_, ?_, ?_⟩
  · intro db data now hne hreq huser hcat
    have hempty : data.isEmpty = false := by
      cases data with
      | nil => exact absurd rfl hne
      | cons a l => rfl
    unfold create_task
    simp [hempty, hreq, huser, hcat]
  · intro db data now hne hreq huser
    have hempty : data.isEmpty = false := by
      cases data with
      | nil => exact absurd rfl hne
      | cons a l => rfl
    unfold create_task
    simp [hempty, hreq, huser]
  · intro db data now e h
    rcases create_task_cases db data now with ⟨e', heq⟩ | ⟨t, heq⟩
    · rw [heq]
    · rw [heq] at h; simp at h
  · intro db tid data now e h
    rcases update_task_cases db tid data now with ⟨e', heq⟩ | ⟨t, heq⟩
    · rw [heq]
    · rw [heq] at h; simp at h
  · intro db tid data now e h
    rcases partial_update_task_cases db tid data now with ⟨e', heq⟩ | ⟨t, heq⟩
    · rw [heq]
    · rw [heq] at h; simp at h
  · intro db cid data e h
    rcases update_category_cases db cid data with ⟨e', heq⟩ | ⟨c, heq⟩
    · rw [heq]
    · rw [heq] at h; simp at h

/-- Witness for C3: against the sample store, creating a task that names
the missing category 99 yields `NotFound` and the untouched store, and so
does creating one that names the missing user 42. -/
theorem C3_witness :
    create_task sampleDB
        [("title", .vStr "x"), ("category_id", .vInt 99), ("user_id", .vInt 1)]
        sampleTime
      = (.error (.notFound "Category not found"), sampleDB) ∧
    create_task sampleDB
        [("title", .vStr "x"), ("category_id", .vInt 1), ("user_id", .vInt 42)]
        sampleTime
      = (.error (.notFound "User not found"), sampleDB) :=
  ⟨C3_error_paths_leave_store_unchanged.1 sampleDB
     [("title", .vStr "x"), ("category_id", .vInt 99), ("user_id", .vInt 1)]
     sampleTime (by decide) (by rfl) (by rfl) (by rfl),
   C3_error_paths_leave_store_unchanged.2.1 sampleDB
     [("title", .vStr "x"), ("category_id", .vInt 1), ("user_id", .vInt 42)]
     sampleTime (by decide) (by rfl) (by rfl)⟩

/-- Errors of the status-filter resolution are always bad-request errors. -/
theorem statusFilterStep_error (o : Option String) (e : ApiErr)
    (h : statusFilterStep o = .error e) : ∃ msg, e = .badRequest msg := by
  rcases o with _ | s
  · simp [statusFilterStep] at h
  · by_cases hs : s.isEmpty
    · simp [statusFilterStep, hs] at h
    · by_cases hv : (validateStatus (.vStr s)).1
      · simp [statusFilterStep, hs, hv] at h
      · refine ⟨((validateStatus (.vStr s)).2.1).getD "", ?_⟩
        simp [statusFilterStep, hs, hv] at h
        exact h.symm

/-- Errors of the priority-filter resolution are always bad-request errors. -/
theorem priorityFilterStep_error (o : Option String) (e : ApiErr)
    (h : priorityFilterStep o = .error e) : ∃ msg, e = .badRequest msg := by
  rcases o with _ | s
  · simp [priorityFilterStep] at h
  · by_cases hs : s.isEmpty
    · simp [priorityFilterStep, hs] at h
    · by_cases hv : (validatePriority (.vStr s)).1
      · simp [priorityFilterStep, hs, hv] at h
      · refine ⟨((validatePriority (.vStr s)).2.1).getD "", ?_⟩
        simp [priorityFilterStep, hs, hv] at h
        exact h.symm

/-- Claim C7: `sort_by` must come from the fixed allow-list (default
`created_at` when absent), `order` must be `asc`/`desc` up to letter case
(default `desc` when absent), and any other value for either parameter makes
the whole request fail with a bad-request error before any row is returned. -/
theorem C7_sort_parameters_validated_with_defaults :
    (∀ (db : DB) (p : ListParams) (s : String),
      p.sort_by = some s →
      s ∉ ["due_date", "created_at", "priority", "status", "updated_at"] →
      ∃ msg, get_all_tasks db p = .error (.badRequest msg)) ∧
    (∀ (db : DB) (p : ListParams) (s : String),
      p.sort_by = some s → p.status = none → p.priority = none →
      s ∉ ["due_date", "created_at", "priority", "status", "updated_at"] →
      get_all_tasks db p = .error (.badRequest
        "Invalid sort_by parameter. Must be one of: due_date, created_at, priority, status, updated_at")) ∧
    (∀ (db : DB) (p : ListParams) (s : String),
      p.order = some s → pyLower s ∉ ["asc", "desc"] →
      ∃ msg, get_all_tasks db p = .error (.badRequest msg)) ∧
    (∀ (db : DB) (p : ListParams), p.sort_by = none →
      get_all_tasks db p = get_all_tasks db { p with sort_by := some "created_at" }) ∧
    (∀ (db : DB) (p : ListParams), p.order = none →
      get_all_tasks db p = get_all_tasks db { p with order := some "desc" }) ∧
    (∀ (db : DB) (p : ListParams) (s1 s2 : String), pyLower s1 = pyLower s2 →
      get_all_tasks db { p with order := some s1 }
        = get_all_tasks db { p with order := some s2 }) := by
  refine ⟨?_, ?_, ?_, ?_, ?_, ?_⟩
  · intro db p s hsb hnot
    cases hss : statusFilterStep p.status with
    | error e =>
      obtain ⟨m, rfl⟩ := statusFilterStep_error _ _ hss
      exact ⟨m, by simp only [get_all_tasks, hss]⟩
    | ok sF =>
      cases hpp : priorityFilterStep p.priority with
      | error e =>
        obtain ⟨m, rfl⟩ := priorityFilterStep_error _ _ hpp
        exact ⟨m, by simp only [get_all_tasks, hss, hpp]⟩
      | ok pF =>
        refine ⟨"Invalid sort_by parameter. Must be one of: due_date, created_at, priority, status, updated_at", ?_⟩
        simp only [get_all_tasks, hss, hpp, hsb, Option.getD_some]
        split
        · rfl
        · next hC => exact absurd (by simpa using hnot) hC
  · intro db p s hsb hstat hpri hnot
    have hss : statusFilterStep p.status = .ok none := by
      simp only [hstat]; rfl
    have hpp : priorityFilterStep p.priority = .ok none := by
      simp only [hpri]; rfl
    simp only [get_all_tasks, hss, hpp, hsb, Option.getD_some]
    split
    · rfl
    · next hC => exact absurd (by simpa using hnot) hC
  · intro db p s ho hnot
    cases hss : statusFilterStep p.status with
    | error e =>
      obtain ⟨m, rfl⟩ := statusFilterStep_error _ _ hss
      exact ⟨m, by simp only [get_all_tasks, hss]⟩
    | ok sF =>
      cases hpp : priorityFilterStep p.priority with
      | error e =>
        obtain ⟨m, rfl⟩ := priorityFilterStep_error _ _ hpp
        exact ⟨m, by simp only [get_all_tasks, hss, hpp]⟩
      | ok pF =>
        by_cases hsort : ((["due_date", "created_at", "priority", "status",
            "updated_at"] : List String).contains (p.sort_by.getD "created_at")) = true
        · refine ⟨"Invalid order parameter. Must be asc or desc", ?_⟩
          simp only [get_all_tasks, hss, hpp, ho, Option.getD_some]
          split
          · next hC1 => rw [hsort] at hC1; exact absurd hC1 (by decide)
          · split
            · rfl
            · next hC2 => exact absurd (by simpa using hnot) hC2
        · have hsort2 : ((["due_date", "created_at", "priority", "status",
              "updated_at"] : List String).contains (p.sort_by.getD "created_at")) = false := by
            simpa using hsort
          refine ⟨"Invalid sort_by parameter. Must be one of: due_date, created_at, priority, status, updated_at", ?_⟩
          simp only [get_all_tasks, hss, hpp, Option.getD_some]
          split
          · rfl
          · next hC1 => exact absurd (by simpa using hsort2) hC1
  · intro db p hsb
    obtain ⟨st, pr, ci, ui, sb, od⟩ := p
    cases hsb
    rfl
  · intro db p ho
    obtain ⟨st, pr, ci, ui, sb, od⟩ := p
    cases ho
    rfl
  · intro db p s1 s2 h
    obtain ⟨st, pr, ci, ui, sb, od⟩ := p
    simp only [get_all_tasks, Option.getD_some]
    rw [h]

/-- Witness for C7: an unknown `sort_by` value fails the request with the
exact allow-list message against the sample store. -/
theorem C7_witness :
    get_all_tasks sampleDB (sortParams "bogus" "asc")
      = .error (.badRequest
        "Invalid sort_by parameter. Must be one of: due_date, created_at, priority, status, updated_at") :=
  C7_sort_parameters_validated_with_defaults.2.1 sampleDB
    (sortParams "bogus" "asc") "bogus" rfl rfl rfl (by decide)

/-- Unfolding helper: the character list of a built string. -/
theorem toList_mk (l : List Char) : (String.mk l).toList = l := rfl

/-- A string built from a nonempty character list is not empty. -/
theorem isEmpty_mk_false (l : List Char) (h : l ≠ []) :
    (String.mk l).isEmpty = false := by
  cases he : (String.mk l).isEmpty with
  | false => rfl
  | true =>
    rw [String.isEmpty_iff] at he
    exact absurd (congrArg String.data he) (by simpa using h)

/-- Replacing `Z` distributes over list append. -/
theorem pyReplaceZ_append (a b : List Char) :
    pyReplaceZ (a ++ b) = pyReplaceZ a ++ pyReplaceZ b := by
  simp [pyReplaceZ]

/-- A character list without `Z` is fixed by the replacement. -/
theorem pyReplaceZ_of_not_mem (cs : List Char) (h : 'Z' ∉ cs) :
    pyReplaceZ cs = cs := by
  induction cs with
  | nil => rfl
  | cons c rest ih =>
    simp only [List.mem_cons, not_or] at h
    have hc : ¬(c = 'Z') := fun e => h.1 e.symm
    simp only [pyReplaceZ, List.flatMap_cons] at ih ⊢
    rw [if_neg hc, List.singleton_append]
    exact congrArg (List.cons c) (ih h.2)

/-- Claim C6: for a due-date string ending in `Z`, parsing it gives the same
result as parsing the same string with that trailing `Z` replaced by
`+00:00` (stated black-box through `parse_datetime` for an arbitrary prefix,
and down to the raw ISO parse when the trailing `Z` is the only `Z`); and an
absent, non-string or unparsable due date yields `none` rather than an
error. -/
theorem C6_parse_datetime_trailing_z_and_silent_drop :
    (∀ cs : List Char,
      parse_datetime (.vStr (String.mk (cs ++ ['Z'])))
        = parse_datetime (.vStr (String.mk (cs ++ "+00:00".toList)))) ∧
    (∀ cs : List Char, 'Z' ∉ cs →
      parse_datetime (.vStr (String.mk (cs ++ ['Z'])))
        = fromisoformatL (cs ++ "+00:00".toList)) ∧
    parse_datetime .vNull = none ∧
    parse_datetime (.vStr "") = none ∧
    (∀ i : Int, parse_datetime (.vInt i) = none) ∧
    (∀ s : String, fromisoformatL (pyReplaceZ s.toList) = none →
      parse_datetime (.vStr s) = none) := by
  refine ⟨?_, ?_, rfl, rfl, ?_, ?_⟩
  · intro cs
    have h1 : (String.mk (cs ++ ['Z'])).isEmpty = false :=
      isEmpty_mk_false _ (by simp)
    have h2 : (String.mk (cs ++ "+00:00".toList)).isEmpty = false :=
      isEmpty_mk_false _ (by simp)
    unfold parse_datetime pyFalsy
    simp only [h1, h2, Bool.false_eq_true, if_false, toList_mk,
      pyReplaceZ_append]
    rfl
  · intro cs h
    have h1 : (String.mk (cs ++ ['Z'])).isEmpty = false :=
      isEmpty_mk_false _ (by simp)
    unfold parse_datetime pyFalsy
    simp only [h1, Bool.false_eq_true, if_false, toList_mk, pyReplaceZ_append,
      pyReplaceZ_of_not_mem cs h]
    rfl
  · intro i
    unfold parse_datetime pyFalsy
    by_cases h : (i == 0) = true <;> simp [h]
  · intro s h
    unfold parse_datetime pyFalsy
    by_cases he : s.isEmpty = true
    · simp [he]
    · have he2 : s.isEmpty = false := by simpa using he
      simp only [he2, Bool.false_eq_true, if_false]
      exact h

/-- Witness for C6: a well-formed UTC-suffixed timestamp parses exactly as
its `+00:00` form, and a malformed string is silently dropped. -/
theorem C6_witness :
    parse_datetime (.vStr "2024-06-01T12:30:00Z")
      = fromisoformatL ("2024-06-01T12:30:00+00:00".toList) ∧
    parse_datetime (.vStr "not-a-date") = none ∧
    parse_datetime (.vStr "2024-06-01T12:30:00Z")
      = some ⟨2024, 6, 1, 12, 30, 0, 0, some 0⟩ :=
  ⟨C6_parse_datetime_trailing_z_and_silent_drop.2.1
      ("2024-06-01T12:30:00".toList) (by decide),
   C6_parse_datetime_trailing_z_and_silent_drop.2.2.2.2.2 "not-a-date" (by rfl),
   rfl⟩



/-- Normal form of the title block: overwrite exactly when the key is present. -/
theorem patchTitle_eq (data : Data) (t : TaskR) :
    patchTitle data t =
      { t with title := if hasKey data "title" then getv data "title" else t.title } := by
  unfold patchTitle
  cases hk : hasKey data "title" <;> simp [hk]

/-- Normal form of the description block. -/
theorem patchDescription_eq (data : Data) (t : TaskR) :
    patchDescription data t =
      { t with description :=
          if hasKey data "description" then getv data "description" else t.description } := by
  unfold patchDescription
  cases hk : hasKey data "description" <;> simp [hk]

/-- Normal form of the due-date block. -/
theorem patchDueDate_eq (data : Data) (t : TaskR) :
    patchDueDate data t =
      { t with due_date :=
          if hasKey data "due_date" then parse_datetime (getv data "due_date") else t.due_date } := by
  unfold patchDueDate
  cases hk : hasKey data "due_date" <;> simp [hk]

/-- Normal form of the status block: fail exactly when the key is present
with an invalid value, otherwise write the validator result. -/
theorem patchStatus_eq (data : Data) (t : TaskR) :
    patchStatus data t =
      if hasKey data "status" && !(validateStatus (getv data "status")).1 then
        .error (.badRequest (((validateStatus (getv data "status")).2.1).getD ""))
      else .ok { t with status := (if hasKey data "status" then
            (validateStatus (getv data "status")).2.2 else t.status) } := by
  unfold patchStatus
  cases hk : hasKey data "status"
  · simp [hk]
  · cases hv : (validateStatus (getv data "status")).1 <;> simp [hk, hv]

/-- Normal form of the priority block. -/
theorem patchPriority_eq (data : Data) (t : TaskR) :
    patchPriority data t =
      if hasKey data "priority" && !(validatePriority (getv data "priority")).1 then
        .error (.badRequest (((validatePriority (getv data "priority")).2.1).getD ""))
      else .ok { t with priority := (if hasKey data "priority" then
            (validatePriority (getv data "priority")).2.2 else t.priority) } := by
  unfold patchPriority
  cases hk : hasKey data "priority"
  · simp [hk]
  · cases hv : (validatePriority (getv data "priority")).1 <;> simp [hk, hv]

/-- Normal form of the category block: fail exactly when the key is present
and the referenced category does not exist. -/
theorem patchCategory_eq (db : DB) (data : Data) (t : TaskR) :
    patchCategory db data t =
      if hasKey data "category_id" && !(categoryExists db (getv data "category_id")) then
        .error (.notFound "Category not found")
      else .ok { t with category_id := (if hasKey data "category_id" then
            getv data "category_id" else t.category_id) } := by
  unfold patchCategory
  cases hk : hasKey data "category_id"
  · simp [hk]
  · cases hv : categoryExists db (getv data "category_id") <;> simp [hk, hv]

/-- Normal form of the user block. -/
theorem patchUser_eq (db : DB) (data : Data) (t : TaskR) :
    patchUser db data t =
      if hasKey data "user_id" && !(userExists db (getv data "user_id")) then
        .error (.notFound "User not found")
      else .ok { t with user_id := (if hasKey data "user_id" then
            getv data "user_id" else t.user_id) } := by
  unfold patchUser
  cases hk : hasKey data "user_id"
  · simp [hk]
  · cases hv : userExists db (getv data "user_id") <;> simp [hk, hv]

/-- Row produced by a successful PATCH field application: exactly the keyed
fields are overwritten, all other fields keep their prior values. -/
def patchTarget (data : Data) (t0 : TaskR) : TaskR :=
  { t0 with
    title := if hasKey data "title" then getv data "title" else t0.title
    description := if hasKey data "description" then getv data "description" else t0.description
    status := if hasKey data "status" then (validateStatus (getv data "status")).2.2 else t0.status
    priority := if hasKey data "priority" then (validatePriority (getv data "priority")).2.2 else t0.priority
    due_date := if hasKey data "due_date" then parse_datetime (getv data "due_date") else t0.due_date
    category_id := if hasKey data "category_id" then getv data "category_id" else t0.category_id
    user_id := if hasKey data "user_id" then getv data "user_id" else t0.user_id }

set_option maxHeartbeats 1000000 in
/-- Success/failure normal form of the PATCH field application: the checks
depend only on the payload and the store, and a successful application
rewrites the row to `patchTarget`. -/
theorem applyFields_eq (db : DB) (data : Data) (t0 : TaskR) :
    applyFields db data t0 =
      if hasKey data "status" && !(validateStatus (getv data "status")).1 then
        .error (.badRequest (((validateStatus (getv data "status")).2.1).getD ""))
      else if hasKey data "priority" && !(validatePriority (getv data "priority")).1 then
        .error (.badRequest (((validatePriority (getv data "priority")).2.1).getD ""))
      else if hasKey data "category_id" && !(categoryExists db (getv data "category_id")) then
        .error (.notFound "Category not found")
      else if hasKey data "user_id" && !(userExists db (getv data "user_id")) then
        .error (.notFound "User not found")
      else .ok (patchTarget data t0) := by
  unfold applyFields
  simp only [patchTitle_eq, patchDescription_eq, patchDueDate_eq, patchStatus_eq,
    patchPriority_eq, patchCategory_eq, patchUser_eq, bind, Except.bind]
  cases hc3 : (hasKey data "status" && !(validateStatus (getv data "status")).1)
  case true => simp [hc3]
  case false =>
  cases hc4 : (hasKey data "priority" && !(validatePriority (getv data "priority")).1)
  case true => simp [hc3, hc4]
  case false =>
  cases hc6 : (hasKey data "category_id" && !(categoryExists db (getv data "category_id")))
  case true => simp [hc3, hc4, hc6]
  case false =>
  cases hc7 : (hasKey data "user_id" && !(userExists db (getv data "user_id")))
  case true => simp [hc3, hc4, hc6, hc7]
  case false =>
    simp only [hc3, hc4, hc6, hc7, Bool.false_eq_true, if_false]
    rfl



/-- After committing a row replacement, looking the id up again finds the
replacement. -/
theorem find?_map_replace (l : List TaskR) (tid : Int) (t2 : TaskR)
    (hid : (t2.id == tid) = true) (task : TaskR)
    (h : l.find? (fun t => t.id == tid) = some task) :
    (l.map (fun t => if t.id == tid then t2 else t)).find? (fun t => t.id == tid)
      = some t2 := by
  induction l with
  | nil => simp at h
  | cons x xs ih =>
    cases hx : (x.id == tid) with
    | true =>
      simp only [List.map_cons, hx, if_true, List.find?_cons, hid]
    | false =>
      simp only [List.find?_cons, hx] at h
      simp only [List.map_cons, hx, Bool.false_eq_true, if_false, List.find?_cons]
      exact ih h

/-- The PATCH field application reads only the `users` and `categories`
tables, so replacing a task row does not affect it. -/
theorem applyFields_replaceTask (db : DB) (tid : Int) (x : TaskR)
    (data : Data) (t : TaskR) :
    applyFields (replaceTask db tid x) data t = applyFields db data t := rfl

/-- Success form of the PATCH handler, given a found row and a successful
field application. -/
theorem partial_update_task_ok (db : DB) (tid : Int) (data : Data) (now : DateTime)
    (task : TaskR) (hd : data.isEmpty = false) (hf : findTask db tid = some task)
    (t : TaskR) (ha : applyFields db data task = .ok t) :
    partial_update_task db tid data now
      = (.ok { t with updated_at := now },
         replaceTask db tid { t with updated_at := now }) := by
  unfold partial_update_task
  simp only [hd, Bool.false_eq_true, if_false, hf, ha]

set_option maxHeartbeats 1000000 in
/-- Claim C8: repeating an identical partial update on the task it just
produced succeeds again and yields the same stored row except that
`updated_at` is refreshed to the second application time; and fields not
present in the payload retain the prior row's values after an application. -/
theorem C8_partial_update_idempotent_modulo_updated_at :
    ∀ (db : DB) (tid : Int) (data : Data) (now1 now2 : DateTime)
      (r1 : TaskR) (db1 : DB),
      partial_update_task db tid data now1 = (.ok r1, db1) →
      (partial_update_task db1 tid data now2
         = (.ok { r1 with updated_at := now2 },
            replaceTask db1 tid { r1 with updated_at := now2 })) ∧
      (∀ task, findTask db tid = some task →
        r1.id = task.id ∧ r1.created_at = task.created_at ∧
        (hasKey data "title" = false → r1.title = task.title) ∧
        (hasKey data "description" = false → r1.description = task.description) ∧
        (hasKey data "status" = false → r1.status = task.status) ∧
        (hasKey data "priority" = false → r1.priority = task.priority) ∧
        (hasKey data "due_date" = false → r1.due_date = task.due_date) ∧
        (hasKey data "category_id" = false → r1.category_id = task.category_id) ∧
        (hasKey data "user_id" = false → r1.user_id = task.user_id)) := by
  intro db tid data now1 now2 r1 db1 h
  by_cases hd : data.isEmpty = true
  · unfold partial_update_task at h
    rw [if_pos hd] at h
    exact absurd (congrArg Prod.fst h) (by simp)
  have hd2 : data.isEmpty = false := by simpa using hd
  unfold partial_update_task at h
  simp only [hd2, Bool.false_eq_true, if_false] at h
  split at h
  · exact absurd (congrArg Prod.fst h) (by simp)
  next task hf =>
    split at h
    · exact absurd (congrArg Prod.fst h) (by simp)
    next t heq2 =>
      simp only [Prod.mk.injEq, Except.ok.injEq] at h
      obtain ⟨hr, hdb⟩ := h
      rw [applyFields_eq] at heq2
      cases hc3 : (hasKey data "status" && !(validateStatus (getv data "status")).1) with
      | true => rw [hc3] at heq2; simp at heq2
      | false =>
      rw [hc3] at heq2
      cases hc4 : (hasKey data "priority" && !(validatePriority (getv data "priority")).1) with
      | true => rw [hc4] at heq2; simp at heq2
      | false =>
      rw [hc4] at heq2
      cases hc6 : (hasKey data "category_id" && !(categoryExists db (getv data "category_id"))) with
      | true => rw [hc6] at heq2; simp at heq2
      | false =>
      rw [hc6] at heq2
      cases hc7 : (hasKey data "user_id" && !(userExists db (getv data "user_id"))) with
      | true => rw [hc7] at heq2; simp at heq2
      | false =>
      rw [hc7] at heq2
      simp only [Bool.false_eq_true, if_false, Except.ok.injEq] at heq2
      subst heq2
      subst hr
      subst hdb
      have hid : (task.id == tid) = true := by
        have := List.find?_some hf
        simpa using this
      constructor
      · have hid2 : (({ patchTarget data task with updated_at := now1 } : TaskR).id == tid) = true := by
          simpa [patchTarget] using hid
        have hfind2 : findTask (replaceTask db tid { patchTarget data task with updated_at := now1 }) tid
            = some ({ patchTarget data task with updated_at := now1 }) :=
          find?_map_replace db.tasks tid _ hid2 task hf
        have htarget : patchTarget data ({ patchTarget data task with updated_at := now1 })
            = { patchTarget data task with updated_at := now1 } := by
          unfold patchTarget
          by_cases h1 : hasKey data "title" = true <;>
            by_cases h2 : hasKey data "description" = true <;>
              by_cases h3 : hasKey data "status" = true <;>
                by_cases h4 : hasKey data "priority" = true <;>
                  by_cases h5 : hasKey data "due_date" = true <;>
                    by_cases h6 : hasKey data "category_id" = true <;>
                      by_cases h7 : hasKey data "user_id" = true <;>
                        simp [h1, h2, h3, h4, h5, h6, h7]
        have ha2 : applyFields (replaceTask db tid { patchTarget data task with updated_at := now1 })
            data ({ patchTarget data task with updated_at := now1 })
            = .ok ({ patchTarget data task with updated_at := now1 }) := by
          rw [applyFields_replaceTask, applyFields_eq, hc3, hc4, hc6, hc7]
          simp only [Bool.false_eq_true, if_false]
          rw [htarget]
        exact partial_update_task_ok _ tid data now2 _ hd2 hfind2 _ ha2
      · intro task2 hf2
        rw [hf] at hf2
        injection hf2 with hf2
        subst hf2
        refine ⟨rfl, rfl, ?_, ?_, ?_, ?_, ?_, ?_, ?_⟩ <;>
          · intro hk
            simp [patchTarget, hk]

/-- Row produced by the concrete first PATCH application used in the C8
witness. -/
def c8row : TaskR :=
  ⟨1, .vStr "new", .vStr "", some (.mem .PENDING), some (.mem .HIGH), none,
   .vInt 1, .vInt 1, sampleTime, sampleTime⟩

/-- Witness for C8: against the sample store, repeating the partial update
setting `title` and `priority` reproduces the same row with only
`updated_at` moved to the second application time. -/
theorem C8_witness :
    partial_update_task (replaceTask sampleDB 1 c8row) 1
        [("title", .vStr "new"), ("priority", .vStr "high")] sampleTime2
      = (.ok { c8row with updated_at := sampleTime2 },
         replaceTask (replaceTask sampleDB 1 c8row) 1
           { c8row with updated_at := sampleTime2 }) :=
  (C8_partial_update_idempotent_modulo_updated_at sampleDB 1
    [("title", .vStr "new"), ("priority", .vStr "high")] sampleTime sampleTime2
    c8row (replaceTask sampleDB 1 c8row) (by rfl)).1

end TaskManager
